import Mathlib

/-!
Verification of the chatbot backend in `chatbot_api.py`.

Python strings are modelled as `List Char`; the global dict
`conversation_history` as a function `Str → Option (List Turn)`;
the outbound HTTP call to the completion backend as an oracle
`List Turn → Except Str GroqResponse`.
-/

/-- Python `str` is modelled as a list of characters. -/
abbrev Str := List Char

/-- Shorthand turning a Lean string literal into the model type. -/
def str (s : String) : Str := s.data

/-- Python `needle in haystack` on strings: substring containment. -/
def containsSub (needle haystack : Str) : Bool :=
  haystack.tails.any (fun t => needle.isPrefixOf t)

/-- Python `message.lower()` (ASCII case folding suffices for the keyword sets used). -/
def lower (m : Str) : Str := m.map Char.toLower

/-- The `cv_keywords` list of `is_cv_question` (chatbot_api.py lines 78-93). -/
def cv_keywords : List Str :=
  [str "laiba", str "you", str "your", str "yourself",
   str "experience", str "worked", str "job", str "intern", str "company",
   str "binate", str "stackware",
   str "skills", str "know", str "proficient", str "expert",
   str "study", str "studied", str "education", str "degree", str "university",
   str "college", str "cgpa", str "gpa",
   str "projects", str "built", str "created", str "developed", str "portfolio",
   str "contact", str "email", str "github", str "portfolio", str "reach",
   str "about", str "who are", str "tell me about", str "background"]

/-- The `tech_keywords` list of `is_cv_question` (chatbot_api.py lines 99-103). -/
def tech_keywords : List Str :=
  [str "what is", str "how does", str "explain", str "difference between",
   str "algorithm", str "data structure", str "code", str "program",
   str "example", str "tutorial", str "learn"]

/-- Line 96: `any(keyword in message_lower for keyword in cv_keywords)`. -/
def has_cv_keyword (message_lower : Str) : Bool :=
  cv_keywords.any (fun k => containsSub k message_lower)

/-- Line 105: `any(keyword in message_lower for keyword in tech_keywords)`. -/
def has_tech_keyword (message_lower : Str) : Bool :=
  tech_keywords.any (fun k => containsSub k message_lower)

/-- Function `is_cv_question` (chatbot_api.py lines 73-107). -/
def is_cv_question (message : Str) : Bool :=
  let message_lower := lower message
  let has_cv := has_cv_keyword message_lower
  let is_general_tech := has_tech_keyword message_lower && !has_cv
  has_cv && !is_general_tech

/-- The generic technical-assistant system prompt (chatbot_api.py lines 127-138). -/
def technicalPrompt : Str :=
  str "You are a helpful technical assistant specializing in Computer Science, programming, and software development.\n\nYour expertise includes:\n- Programming languages (Python, JavaScript, Java, C++, etc.)\n- Data structures and algorithms\n- Web development (Frontend & Backend)\n- Databases (SQL, NoSQL)\n- Machine Learning and AI\n- Software engineering principles\n- System design and architecture\n\nProvide clear, accurate, and practical answers. Include code examples when relevant. Be concise but thorough."

/-- Text of the grounded prompt before the interpolated `cv_content` (line 113). -/
def cvPromptPre : Str :=
  str "You are Laiba Qayoom\x27s AI assistant. Answer questions about Laiba using ONLY the CV information provided below. Be professional, concise, and accurate.\n\nCV INFORMATION:\n"

/-- Text of the grounded prompt after the interpolated `cv_content` (lines 118-124). -/
def cvPromptPost : Str :=
  str "\n\nRULES:\n- Answer questions about Laiba\x27s experience, skills, education, and projects\n- Use information ONLY from the CV above\n- Be conversational but professional\n- If asked about something not in the CV, say you don\x27t have that information\n- Keep responses focused and concise\n- Include specific details like percentages, technologies, and achievements when relevant"

/-- Function `create_system_prompt` (chatbot_api.py lines 109-138); `cv_content` is passed
explicitly instead of being a global, and Python string truthiness becomes
non-emptiness. -/
def create_system_prompt (is_cv_query : Bool) (cv_content : Str) : Str :=
  if is_cv_query = true ∧ cv_content ≠ [] then
    cvPromptPre ++ cv_content ++ cvPromptPost
  else
    technicalPrompt

/-- One entry of a `conversation_history` list: `{"role": ..., "content": ...}`. -/
structure Turn where
  role : Str
  content : Str
deriving DecidableEq, Repr

/-- The global dict `conversation_history: Dict[str, List[Dict]]` (line 52). -/
abbrev SessionMap := Str → Option (List Turn)

/-- The initial, empty `conversation_history`. -/
def emptyMap : SessionMap := fun _ => none

/-- Lines 144-145: `if session_id not in conversation_history:
conversation_history[session_id] = []`. -/
def ensureSession (st : SessionMap) (session_id : Str) : SessionMap :=
  match st session_id with
  | none => fun s => if s = session_id then some [] else st s
  | some _ => st

/-- The relevant parts of the HTTP response from the completion backend:
the status code, the raw body text, and `choices[0].message.content` when
that shape is present. -/
structure GroqResponse where
  status : Nat
  text : Str
  content : Option Str
deriving Repr

/-- Rendering of a `Nat` as Python would interpolate it into an f-string. -/
def natStr (n : Nat) : Str := (toString n).data

/-- The exceptions `chat_with_groq` can raise: a `requests` exception
(network error or timeout), the `Exception(f"API error: {status}")` of
line 198, or the `KeyError` from the extraction on line 185. -/
inductive ChatError where
  | netError (msg : Str)
  | apiError (status : Nat)
  | malformedResponse
deriving DecidableEq, Repr

/-- Python `str(e)` for each modelled exception: the message the handler surfaces. -/
def errMessage : ChatError → Str
  | .netError msg => msg
  | .apiError status => str "API error: " ++ natStr status
  | .malformedResponse => str "\x27choices\x27"

/-- Lines 154-163: the `messages` array — system prompt first, then
`conversation_history[session_id][-5:]`, then the new user message. -/
def buildMessages (system_prompt : Str) (hist : List Turn) (message : Str) : List Turn :=
  ⟨str "system", system_prompt⟩ ::
    (hist.drop (hist.length - 5) ++ [⟨str "user", message⟩])

/-- Lines 188-193: append the user/assistant exchange, then
`conversation_history[session_id] = conversation_history[session_id][-10:]`
when the length exceeds 10. -/
def appendExchange (hist : List Turn) (message assistant_message : Str) : List Turn :=
  let h2 := hist ++ [⟨str "user", message⟩, ⟨str "assistant", assistant_message⟩]
  if 10 < h2.length then h2.drop (h2.length - 10) else h2

/-- Function `chat_with_groq` (chatbot_api.py lines 140-202). The globals `cv_content`
and `conversation_history` are explicit arguments; the single
`requests.post` is an oracle from the posted message list to its outcome
(`.error` = a raised `requests` exception). The function returns the updated
history dict and either the `(assistant_message, is_cv_query)` pair or the
raised exception. -/
def chat_with_groq (cv_content : Str) (st : SessionMap) (message session_id : Str)
    (call : List Turn → Except Str GroqResponse) :
    SessionMap × Except ChatError (Str × Bool) :=
  let st1 := ensureSession st session_id
  let hist := (st1 session_id).getD []
  let is_cv_query := is_cv_question message
  let system_prompt := create_system_prompt is_cv_query cv_content
  let messages := buildMessages system_prompt hist message
  match call messages with
  | .error e => (st1, .error (.netError e))
  | .ok resp =>
    if resp.status = 200 then
      match resp.content with
      | some assistant_message =>
        (fun s => if s = session_id
                  then some (appendExchange hist message assistant_message)
                  else st1 s,
         .ok (assistant_message, is_cv_query))
      | none => (st1, .error .malformedResponse)
    else
      (st1, .error (.apiError resp.status))

/-- Python `message.strip()`: whitespace removed from both ends. -/
def pyStrip (l : Str) : Str :=
  ((l.dropWhile Char.isWhitespace).reverse.dropWhile Char.isWhitespace).reverse

/-- An inbound request to `POST /api/chat` as the handler observes it:
whether the body parsed as JSON, and the `message` / `session_id` fields. -/
structure ChatRequest where
  is_json : Bool
  message : Option Str
  session_id : Option Str

/-- A response body produced by a handler: an error payload or the success
payload `{response, status: "success", session_id, query_type}`. -/
inductive ChatBody where
  | fail (error : Str)
  | ok (response : Str) (session_id : Str) (is_cv_query : Bool)
deriving DecidableEq, Repr

/-- The `/api/chat` handler `chat` (chatbot_api.py lines 221-262): returns the
updated history dict, the HTTP status, and the body. -/
def chat (cv_content : Str) (st : SessionMap) (req : ChatRequest)
    (call : List Turn → Except Str GroqResponse) : SessionMap × Nat × ChatBody :=
  if req.is_json = false then
    (st, 400, .fail (str "Content-Type must be application/json"))
  else
    let message := pyStrip (req.message.getD [])
    let session_id := req.session_id.getD (str "default")
    if message = [] then
      (st, 400, .fail (str "No message provided"))
    else if 2000 < message.length then
      (st, 400, .fail (str "Message too long (max 2000 characters)"))
    else
      match chat_with_groq cv_content st message session_id call with
      | (st2, .ok (response_text, is_cv_query)) =>
        (st2, 200, .ok response_text session_id is_cv_query)
      | (st2, .error _) =>
        (st2, 500, .fail (str "An error occurred processing your request"))

/-- Line 269 of `reset_chat`: the session id defaults to `"default"`, and a
non-JSON body acts as an empty dict. -/
def resetSessionId (is_json : Bool) (session_id : Option Str) : Str :=
  if is_json then session_id.getD (str "default") else str "default"

/-- The `/api/chat/reset` handler `reset_chat` (chatbot_api.py lines 264-281):
deletes the session key when present, answers 200 echoing the session id. -/
def reset_chat (st : SessionMap) (is_json : Bool) (session_id : Option Str) :
    SessionMap × Nat × Str :=
  let sid := resetSessionId is_json session_id
  match st sid with
  | some _ => (fun s => if s = sid then none else st s, 200, sid)
  | none => (st, 200, sid)

/-- The message list `chat_with_groq` posts to the completion backend,
as a function of its inputs. -/
def sentMessages (cv_content : Str) (st : SessionMap) (message session_id : Str) :
    List Turn :=
  buildMessages (create_system_prompt (is_cv_question message) cv_content)
    ((ensureSession st session_id session_id).getD []) message

/-- The context slice `conversation_history[session_id][-5:]` used on line 159. -/
def recentContext (st : SessionMap) (session_id : Str) : List Turn :=
  let hist := (ensureSession st session_id session_id).getD []
  hist.drop (hist.length - 5)

/-- The history produced by a sequence of successful user/assistant exchanges
on one session, starting from an empty history. -/
def historyAfterAppends (pairs : List (Str × Str)) : List Turn :=
  pairs.foldl (fun h p => appendExchange h p.1 p.2) []

/-- A stored history is a sequence of user/assistant pairs: even length,
roles strictly alternating starting from `"user"`. -/
def wellPaired : List Turn → Bool
  | [] => true
  | _ :: [] => false
  | t1 :: t2 :: rest =>
    decide (t1.role = str "user") && decide (t2.role = str "assistant") && wellPaired rest

/-- The invariant every reachable `conversation_history` satisfies: each
stored session history is well paired and holds at most 10 turns. -/
def HistInv (st : SessionMap) : Prop :=
  ∀ sid h, st sid = some h → wellPaired h = true ∧ h.length ≤ 10

/-- One inbound request: a `/api/chat` call (with its backend outcome) or a
`/api/chat/reset` call. -/
inductive Op where
  | chatOp (req : ChatRequest) (call : List Turn → Except Str GroqResponse)
  | resetOp (is_json : Bool) (session_id : Option Str)

/-- The effect of one request on the history dict. -/
def applyOp (cv_content : Str) (st : SessionMap) : Op → SessionMap
  | .chatOp req call => (chat cv_content st req call).1
  | .resetOp j sid => (reset_chat st j sid).1

/-- The history dict after a sequence of requests against a fresh process. -/
def runOps (cv_content : Str) (ops : List Op) : SessionMap :=
  ops.foldl (applyOp cv_content) emptyMap

/-- A backend call outcome on which `chat_with_groq` raises: a `requests`
exception, a non-200 status, or a 200 response missing
`choices[0].message.content`. -/
def callFailed : Except Str GroqResponse → Prop
  | .error _ => True
  | .ok resp => resp.status ≠ 200 ∨ resp.content = none

/-- A 2001-character message whose last character is a space. -/
def msg2001 : Str := List.replicate 2000 'a' ++ [' ']

/-- A backend oracle that always answers 200 with content `"ok"`. -/
def okCall : List Turn → Except Str GroqResponse :=
  fun _ => .ok ⟨200, [], some (str "ok")⟩

/-- The user-turn dict appended on line 188. -/
def userTurn (m : Str) : Turn := ⟨str "user", m⟩

/-- The assistant-turn dict appended on line 189. -/
def asstTurn (a : Str) : Turn := ⟨str "assistant", a⟩

/-! ### Lemmas about the embedded operations -/

theorem ensureSession_ne (st : SessionMap) (sid s : Str) (h : s ≠ sid) :
    ensureSession st sid s = st s := by
  unfold ensureSession
  cases hst : st sid with
  | none => simp [h]
  | some _ => rfl

theorem ensureSession_of_some (st : SessionMap) (sid : Str) (h : List Turn)
    (hs : st sid = some h) : ensureSession st sid sid = some h := by
  unfold ensureSession
  rw [hs]
  exact hs

theorem ensureSession_of_none (st : SessionMap) (sid : Str)
    (hs : st sid = none) : ensureSession st sid sid = some [] := by
  unfold ensureSession
  rw [hs]
  simp

theorem wellPaired_append : ∀ (l t : List Turn),
    wellPaired l = true → wellPaired t = true → wellPaired (l ++ t) = true
  | [], t, _, ht => ht
  | [t1], t, hl, _ => by simp [wellPaired] at hl
  | t1 :: t2 :: rest, t, hl, ht => by
    simp only [wellPaired, Bool.and_eq_true, decide_eq_true_eq] at hl
    simp only [List.cons_append, wellPaired, Bool.and_eq_true, decide_eq_true_eq]
    exact ⟨⟨hl.1.1, hl.1.2⟩, wellPaired_append rest t hl.2 ht⟩

theorem wellPaired_drop_two : ∀ (l : List Turn),
    wellPaired l = true → wellPaired (l.drop 2) = true
  | [], _ => rfl
  | [t1], hl => by simp [wellPaired] at hl
  | t1 :: t2 :: rest, hl => by
    simp only [wellPaired, Bool.and_eq_true] at hl
    simpa using hl.2

theorem wellPaired_even : ∀ (l : List Turn),
    wellPaired l = true → l.length % 2 = 0
  | [], _ => rfl
  | [t1], hl => by simp [wellPaired] at hl
  | t1 :: t2 :: rest, hl => by
    simp only [wellPaired, Bool.and_eq_true] at hl
    have := wellPaired_even rest hl.2
    simp only [List.length_cons]
    omega

theorem exchange_length (hist : List Turn) (m a : Str) :
    (hist ++ [userTurn m, asstTurn a]).length = hist.length + 2 := by
  simp

theorem appendExchange_drop_form (hist : List Turn) (m a : Str) :
    appendExchange hist m a
      = (hist ++ [userTurn m, asstTurn a]).drop (hist.length + 2 - 10) := by
  simp only [appendExchange]
  rw [show (⟨str "user", m⟩ : Turn) = userTurn m from rfl,
    show (⟨str "assistant", a⟩ : Turn) = asstTurn a from rfl]
  rw [exchange_length]
  split
  · rfl
  · next hle =>
    rw [Nat.sub_eq_zero_of_le (by omega), List.drop_zero]

theorem appendExchange_length_le (hist : List Turn) (m a : Str)
    (h : hist.length ≤ 10) : (appendExchange hist m a).length ≤ 10 := by
  rw [appendExchange_drop_form, List.length_drop, exchange_length]
  omega

theorem appendExchange_wellPaired (hist : List Turn) (m a : Str)
    (hw : wellPaired hist = true) (h : hist.length ≤ 10) :
    wellPaired (appendExchange hist m a) = true := by
  have hpair : wellPaired (hist ++ [userTurn m, asstTurn a]) = true := by
    refine wellPaired_append hist _ hw ?_
    simp [wellPaired, userTurn, asstTurn]
  have heven := wellPaired_even hist hw
  rw [appendExchange_drop_form]
  rcases Nat.lt_or_ge hist.length 9 with hlt | hge
  · rw [Nat.sub_eq_zero_of_le (by omega), List.drop_zero]
    exact hpair
  · have h10 : hist.length = 10 := by omega
    rw [show hist.length + 2 - 10 = 2 by omega]
    exact wellPaired_drop_two _ hpair

theorem histInv_empty : HistInv emptyMap := by
  intro sid h hs
  simp [emptyMap] at hs

theorem histInv_ensure (st : SessionMap) (sid : Str) (hinv : HistInv st) :
    HistInv (ensureSession st sid) := by
  intro s h hs
  unfold ensureSession at hs
  cases hst : st sid with
  | none =>
    rw [hst] at hs
    simp only at hs
    by_cases hss : s = sid
    · rw [if_pos hss] at hs
      cases hs
      exact ⟨rfl, by simp⟩
    · rw [if_neg hss] at hs
      exact hinv s h hs
  | some _ =>
    rw [hst] at hs
    exact hinv s h hs

theorem histInv_chat_with_groq (cv_content : Str) (st : SessionMap) (m sid : Str)
    (call : List Turn → Except Str GroqResponse) (hinv : HistInv st) :
    HistInv (chat_with_groq cv_content st m sid call).1 := by
  have hinv1 : HistInv (ensureSession st sid) := histInv_ensure st sid hinv
  have hhist : wellPaired ((ensureSession st sid sid).getD []) = true
      ∧ ((ensureSession st sid sid).getD []).length ≤ 10 := by
    cases hst : ensureSession st sid sid with
    | none => exact ⟨rfl, by simp⟩
    | some hh => simpa using hinv1 sid hh hst
  simp only [chat_with_groq]
  split
  · exact hinv1
  · split
    · split
      · intro s h hs
        simp only at hs
        by_cases hss : s = sid
        · rw [if_pos hss] at hs
          cases hs
          exact ⟨appendExchange_wellPaired _ _ _ hhist.1 hhist.2,
            appendExchange_length_le _ _ _ hhist.2⟩
        · rw [if_neg hss] at hs
          exact hinv1 s h hs
      · exact hinv1
    · exact hinv1

theorem histInv_chat (cv_content : Str) (st : SessionMap) (req : ChatRequest)
    (call : List Turn → Except Str GroqResponse) (hinv : HistInv st) :
    HistInv (chat cv_content st req call).1 := by
  simp only [chat]
  split
  · exact hinv
  · split
    · exact hinv
    · split
      · exact hinv
      · split
        · next st2 rp icv heq =>
          have : st2 = (chat_with_groq cv_content st
              (pyStrip (req.message.getD [])) (req.session_id.getD (str "default")) call).1 := by
            rw [heq]
          rw [this]
          exact histInv_chat_with_groq _ _ _ _ _ hinv
        · next st2 e heq =>
          have : st2 = (chat_with_groq cv_content st
              (pyStrip (req.message.getD [])) (req.session_id.getD (str "default")) call).1 := by
            rw [heq]
          rw [this]
          exact histInv_chat_with_groq _ _ _ _ _ hinv

theorem histInv_reset (st : SessionMap) (is_json : Bool) (sid_opt : Option Str)
    (hinv : HistInv st) : HistInv (reset_chat st is_json sid_opt).1 := by
  simp only [reset_chat]
  split
  · intro s h hs
    simp only at hs
    by_cases hss : s = resetSessionId is_json sid_opt
    · rw [if_pos hss] at hs
      cases hs
    · rw [if_neg hss] at hs
      exact hinv s h hs
  · exact hinv

theorem histInv_runOps_aux (cv_content : Str) : ∀ (ops : List Op) (st : SessionMap),
    HistInv st → HistInv (ops.foldl (applyOp cv_content) st)
  | [], st, hinv => hinv
  | op :: rest, st, hinv => by
    rw [List.foldl_cons]
    refine histInv_runOps_aux cv_content rest _ ?_
    cases op with
    | chatOp req call => exact histInv_chat cv_content st req call hinv
    | resetOp j sid => exact histInv_reset st j sid hinv

theorem histInv_runOps (cv_content : Str) (ops : List Op) :
    HistInv (runOps cv_content ops) :=
  histInv_runOps_aux cv_content ops emptyMap histInv_empty

theorem historyAfterAppends_le_aux : ∀ (pairs : List (Str × Str)) (h : List Turn),
    h.length ≤ 10 → (pairs.foldl (fun h p => appendExchange h p.1 p.2) h).length ≤ 10
  | [], h, hl => hl
  | p :: rest, h, hl => by
    rw [List.foldl_cons]
    exact historyAfterAppends_le_aux rest _ (appendExchange_length_le h p.1 p.2 hl)

/-! ### Claim theorems -/

/-- C1: the classifier returns (grounding-keyword present) AND NOT
(general-technical-keyword present AND NOT grounding-keyword present), over
substring matching on the lowercased message; hence a message matching both
keyword sets is classified document-grounded, and a message matching neither
is classified general/technical. -/
theorem c1_classifier_formula (m : Str) :
    is_cv_question m
      = (has_cv_keyword (lower m)
          && !(has_tech_keyword (lower m) && !has_cv_keyword (lower m)))
  ∧ (has_cv_keyword (lower m) = true → has_tech_keyword (lower m) = true →
      is_cv_question m = true)
  ∧ (has_cv_keyword (lower m) = false → has_tech_keyword (lower m) = false →
      is_cv_question m = false) := by
  cases h1 : has_cv_keyword (lower m) <;> cases h2 : has_tech_keyword (lower m) <;>
    simp [is_cv_question, h1, h2]

/-- Witness for C1: a message matching both keyword sets is classified
grounded, and one matching neither is classified general. -/
theorem c1_classifier_formula_witness :
    is_cv_question (str "what is your experience") = true
  ∧ is_cv_question (str "hello world") = false :=
  ⟨(c1_classifier_formula (str "what is your experience")).2.1 (by decide) (by decide),
   (c1_classifier_formula (str "hello world")).2.2 (by decide) (by decide)⟩

/-- C2: a stored session history never exceeds 10 turns after any sequence of
exchanges, and the truncation keeps exactly the most recent entries, dropping
the oldest first (`[-10:]` = drop all but the last 10). -/
theorem c2_history_capped (pairs : List (Str × Str)) (hist : List Turn) (m a : Str) :
    (historyAfterAppends pairs).length ≤ 10
  ∧ appendExchange hist m a
      = (hist ++ [userTurn m, asstTurn a]).drop (hist.length + 2 - 10) :=
  ⟨historyAfterAppends_le_aux pairs [] (by simp),
   appendExchange_drop_form hist m a⟩

/-- C3: the three concrete classifier examples named by the spec. -/
theorem c3_spec_examples :
    is_cv_question (str "Tell me about your experience at Stackware") = true
  ∧ is_cv_question (str "What is a binary search tree?") = false
  ∧ is_cv_question (str "What is your experience with binary search trees?") = true :=
  ⟨by decide, by decide, by decide⟩

/-- C4: the prompt builder embeds the document verbatim (as a contiguous
substring) when the query is grounded and the document is non-empty, and
returns the fixed generic technical-assistant instruction in every other
case. Determinism is inherent: it is a pure function of its two arguments. -/
theorem c4_prompt_builder (is_cv_query : Bool) (cv_content : Str) :
    (is_cv_query = true → cv_content ≠ [] →
      cv_content <:+: create_system_prompt is_cv_query cv_content)
  ∧ (is_cv_query = false ∨ cv_content = [] →
      create_system_prompt is_cv_query cv_content = technicalPrompt) := by
  constructor
  · intro hg hcv
    rw [create_system_prompt, if_pos ⟨hg, hcv⟩]
    exact ⟨cvPromptPre, cvPromptPost, by simp⟩
  · intro hor
    rw [create_system_prompt, if_neg]
    rintro ⟨h1, h2⟩
    rcases hor with h | h
    · rw [h] at h1
      cases h1
    · exact h2 h

/-- Witness for C4: at a concrete document, the grounded branch contains the
document and the non-grounded branch is the generic instruction. -/
theorem c4_prompt_builder_witness :
    str "DOC" <:+: create_system_prompt true (str "DOC")
  ∧ create_system_prompt false (str "DOC") = technicalPrompt :=
  ⟨(c4_prompt_builder true (str "DOC")).1 rfl (by decide),
   (c4_prompt_builder false (str "DOC")).2 (Or.inl rfl)⟩

/-- C5: the payload posted to the completion backend is exactly the system
instruction, then the at-most-5 most recent stored turns of the session in
chronological order (a suffix of the stored history), then the new user
message; and the gateway consults the backend only on that payload. -/
theorem c5_completion_payload (cv_content : Str) (st : SessionMap) (m sid : Str) :
    sentMessages cv_content st m sid
      = Turn.mk (str "system") (create_system_prompt (is_cv_question m) cv_content)
          :: (recentContext st sid ++ [userTurn m])
  ∧ recentContext st sid <:+ (ensureSession st sid sid).getD []
  ∧ (recentContext st sid).length ≤ 5
  ∧ ∀ (c1 c2 : List Turn → Except Str GroqResponse),
      c1 (sentMessages cv_content st m sid) = c2 (sentMessages cv_content st m sid) →
      chat_with_groq cv_content st m sid c1 = chat_with_groq cv_content st m sid c2 := by
  refine ⟨rfl, ?_, ?_, ?_⟩
  · exact List.drop_suffix _ _
  · simp only [recentContext, List.length_drop]
    omega
  · intro c1 c2 h
    simp only [sentMessages] at h
    simp only [chat_with_groq]
    rw [h]

/-- Witness for C5: two oracles agreeing on the sent payload produce equal
results on a concrete session. -/
theorem c5_completion_payload_witness :
    chat_with_groq [] emptyMap (str "hi") (str "default")
        (fun _ => Except.ok ⟨200, [], some (str "ok")⟩)
      = chat_with_groq [] emptyMap (str "hi") (str "default")
        (fun ms => if ms.length = 0 then Except.error []
                   else Except.ok ⟨200, [], some (str "ok")⟩) :=
  (c5_completion_payload [] emptyMap (str "hi") (str "default")).2.2.2 _ _ (by rfl)

/-- C7 (amended): on a non-200 status the gateway raises an error carrying the
status — the exception message is `API error: {status}`; the response body is
logged but not carried in the exception — with the history dict unchanged
beyond session creation, and the backend is consulted exactly once, on the
sent payload. -/
theorem c7_upstream_error (cv_content : Str) (st : SessionMap) (m sid body : Str)
    (content : Option Str) (status : Nat) (h : status ≠ 200) :
    chat_with_groq cv_content st m sid (fun _ => Except.ok ⟨status, body, content⟩)
      = (ensureSession st sid, Except.error (ChatError.apiError status))
  ∧ errMessage (ChatError.apiError status) = str "API error: " ++ natStr status
  ∧ ∀ (call : List Turn → Except Str GroqResponse),
      chat_with_groq cv_content st m sid call
        = chat_with_groq cv_content st m sid
            (fun _ => call (sentMessages cv_content st m sid)) := by
  refine ⟨?_, rfl, ?_⟩
  · simp [chat_with_groq, h]
  · intro call
    simp only [chat_with_groq, sentMessages]

/-- Witness for C7 at status 500. -/
theorem c7_upstream_error_witness :
    chat_with_groq [] emptyMap (str "hi") (str "default")
        (fun _ => Except.ok ⟨500, str "oops", none⟩)
      = (ensureSession emptyMap (str "default"), Except.error (ChatError.apiError 500))
  ∧ errMessage (ChatError.apiError 500) = str "API error: " ++ natStr 500 :=
  ⟨(c7_upstream_error [] emptyMap (str "hi") (str "default") (str "oops") none 500
      (by decide)).1,
   (c7_upstream_error [] emptyMap (str "hi") (str "default") (str "oops") none 500
      (by decide)).2.1⟩

/-- Counterexample for C7 as stated: on status 500 with body `"oops"`, the
raised error is `API error: 500`; the response body does not occur in it, so
the error does not carry the body. -/
theorem c7_counterexample :
    (chat_with_groq [] emptyMap (str "hi") (str "default")
        (fun _ => Except.ok ⟨500, str "oops", none⟩)).2
      = Except.error (ChatError.apiError 500)
  ∧ containsSub (str "oops") (errMessage (ChatError.apiError 500)) = false := by
  constructor
  · rfl
  · decide

/-- C8: reset answers 200 echoing the session id, removes exactly that
session's history, and is a successful no-op when the session does not
exist. -/
theorem c8_reset_semantics (st : SessionMap) (is_json : Bool) (sid_opt : Option Str) :
    (reset_chat st is_json sid_opt).2.1 = 200
  ∧ (reset_chat st is_json sid_opt).2.2 = resetSessionId is_json sid_opt
  ∧ (reset_chat st is_json sid_opt).1 (resetSessionId is_json sid_opt) = none
  ∧ (∀ s, s ≠ resetSessionId is_json sid_opt →
      (reset_chat st is_json sid_opt).1 s = st s)
  ∧ (st (resetSessionId is_json sid_opt) = none →
      (reset_chat st is_json sid_opt).1 = st) := by
  simp only [reset_chat]
  cases hst : st (resetSessionId is_json sid_opt) with
  | some hh =>
    refine ⟨rfl, rfl, by simp, ?_, ?_⟩
    · intro s hss
      simp [hss]
    · intro hc
      cases hc
  | none =>
    exact ⟨rfl, rfl, hst, fun s _ => rfl, fun _ => rfl⟩

/-- Witness for C8: reset of a nonexistent session id leaves the empty map
unchanged and succeeds. -/
theorem c8_reset_semantics_witness :
    (reset_chat emptyMap true (some (str "nope"))).1 = emptyMap
  ∧ (reset_chat emptyMap true (some (str "nope"))).2.1 = 200 :=
  ⟨(c8_reset_semantics emptyMap true (some (str "nope"))).2.2.2.2 rfl,
   (c8_reset_semantics emptyMap true (some (str "nope"))).1⟩

/-- C9: every stored session history is an even-length strict alternation of
user/assistant pairs, under any sequence of chat/reset requests. -/
theorem c9_history_pairing (cv_content : Str) (ops : List Op) (sid : Str)
    (h : List Turn) (hs : runOps cv_content ops sid = some h) :
    wellPaired h = true ∧ h.length % 2 = 0 := by
  have hi := histInv_runOps cv_content ops sid h hs
  exact ⟨hi.1, wellPaired_even h hi.1⟩

/-- Witness for C9: after one successful chat request the stored history is
one user/assistant pair. -/
theorem c9_history_pairing_witness :
    wellPaired [userTurn (str "hi"), asstTurn (str "ok")] = true
  ∧ ([userTurn (str "hi"), asstTurn (str "ok")] : List Turn).length % 2 = 0 :=
  c9_history_pairing [] [Op.chatOp ⟨true, some (str "hi"), none⟩ okCall]
    (str "default") [userTurn (str "hi"), asstTurn (str "ok")] (by decide)

/-- C10: when the backend call fails (raised exception, non-200 status, or a
200 response missing `choices[0].message.content`), no turns are appended:
every stored history is unchanged, except that a previously absent session id
is now present with an empty history; the call itself raises. -/
theorem c10_no_append_on_failure (cv_content : Str) (st : SessionMap) (m sid : Str)
    (call : List Turn → Except Str GroqResponse)
    (hfail : callFailed (call (sentMessages cv_content st m sid))) :
    (∀ s, s ≠ sid → (chat_with_groq cv_content st m sid call).1 s = st s)
  ∧ (∀ h, st sid = some h → (chat_with_groq cv_content st m sid call).1 sid = some h)
  ∧ (st sid = none → (chat_with_groq cv_content st m sid call).1 sid = some [])
  ∧ ∃ e, (chat_with_groq cv_content st m sid call).2 = Except.error e := by
  simp only [sentMessages] at hfail
  have hstate : (chat_with_groq cv_content st m sid call).1 = ensureSession st sid
      ∧ ∃ e, (chat_with_groq cv_content st m sid call).2 = Except.error e := by
    rcases hc : call (buildMessages (create_system_prompt (is_cv_question m) cv_content)
        ((ensureSession st sid sid).getD []) m) with e | resp
    · rw [hc] at hfail
      constructor
      · simp [chat_with_groq, hc]
      · exact ⟨ChatError.netError e, by simp [chat_with_groq, hc]⟩
    · rw [hc] at hfail
      simp only [callFailed] at hfail
      by_cases h200 : resp.status = 200
      · rcases hfail with hne | hcont
        · exact absurd h200 hne
        · constructor
          · simp [chat_with_groq, hc, h200, hcont]
          · exact ⟨ChatError.malformedResponse, by simp [chat_with_groq, hc, h200, hcont]⟩
      · constructor
        · simp [chat_with_groq, hc, h200]
        · exact ⟨ChatError.apiError resp.status, by simp [chat_with_groq, hc, h200]⟩
  obtain ⟨h1, h2⟩ := hstate
  refine ⟨?_, ?_, ?_, h2⟩
  · intro s hss
    rw [h1]
    exact ensureSession_ne st sid s hss
  · intro hh hs
    rw [h1]
    exact ensureSession_of_some st sid hh hs
  · intro hs
    rw [h1]
    exact ensureSession_of_none st sid hs

/-- Witness for C10: a raised network error on a fresh session leaves that
session present but empty, and the call raises. -/
theorem c10_no_append_on_failure_witness :
    (chat_with_groq [] emptyMap (str "hi") (str "default")
        (fun _ => Except.error (str "timeout"))).1 (str "default") = some []
  ∧ ∃ e, (chat_with_groq [] emptyMap (str "hi") (str "default")
        (fun _ => Except.error (str "timeout"))).2 = Except.error e :=
  ⟨(c10_no_append_on_failure [] emptyMap (str "hi") (str "default")
      (fun _ => Except.error (str "timeout")) trivial).2.2.1 rfl,
   (c10_no_append_on_failure [] emptyMap (str "hi") (str "default")
      (fun _ => Except.error (str "timeout")) trivial).2.2.2⟩

theorem dropWhile_ws_replicate (n : Nat) :
    (List.replicate n 'a').dropWhile Char.isWhitespace = List.replicate n 'a' := by
  cases n with
  | zero => rfl
  | succ k =>
    rw [List.replicate_succ, List.dropWhile_cons, if_neg (by decide)]

theorem pyStrip_replicate (n : Nat) :
    pyStrip (List.replicate n 'a') = List.replicate n 'a' := by
  unfold pyStrip
  rw [dropWhile_ws_replicate, List.reverse_replicate, dropWhile_ws_replicate,
    List.reverse_replicate]

theorem pyStrip_msg2001 : pyStrip msg2001 = List.replicate 2000 'a' := by
  unfold pyStrip msg2001
  have h1 : (List.replicate 2000 'a' ++ [' '] : Str).dropWhile Char.isWhitespace
      = List.replicate 2000 'a' ++ [' '] := by
    rw [show (List.replicate 2000 'a' : Str) = 'a' :: List.replicate 1999 'a' from rfl,
      List.cons_append, List.dropWhile_cons, if_neg (by decide)]
  rw [h1]
  have h2 : (List.replicate 2000 'a' ++ [' '] : Str).reverse
      = ' ' :: (List.replicate 2000 'a').reverse := by
    rw [List.reverse_append, List.reverse_singleton, List.singleton_append]
  rw [h2, List.dropWhile_cons, if_pos (by decide), List.reverse_replicate,
    dropWhile_ws_replicate, List.reverse_replicate]

theorem msg2001_length : msg2001.length = 2001 := by
  unfold msg2001
  rw [List.length_append, List.length_replicate]
  rfl

/-- C6 (amended): `/api/chat` answers 400 when the body is not JSON, answers
400 `No message provided` when the message field is missing or strips to
empty, and answers 400 when the message exceeds 2000 characters after
`strip()` — the length check applies to the stripped message. -/
theorem c6_request_validation (cv_content : Str) (st : SessionMap) (req : ChatRequest)
    (call : List Turn → Except Str GroqResponse) :
    (req.is_json = false → (chat cv_content st req call).2.1 = 400)
  ∧ (req.is_json = true → pyStrip (req.message.getD []) = [] →
      (chat cv_content st req call).2
        = (400, ChatBody.fail (str "No message provided")))
  ∧ (req.is_json = true → 2000 < (pyStrip (req.message.getD [])).length →
      (chat cv_content st req call).2.1 = 400) := by
  refine ⟨?_, ?_, ?_⟩
  · intro hj
    simp [chat, hj]
  · intro hj hm
    simp [chat, hj, hm]
  · intro hj hlen
    have hne : pyStrip (req.message.getD []) ≠ [] := by
      intro hc
      rw [hc] at hlen
      simp at hlen
    simp [chat, hj, hne, hlen]

/-- Witness for C6: a non-JSON body, a missing message, and a 2001-character
all-letter message each draw a 400. -/
theorem c6_request_validation_witness :
    (chat [] emptyMap ⟨false, none, none⟩ okCall).2.1 = 400
  ∧ (chat [] emptyMap ⟨true, none, none⟩ okCall).2
      = (400, ChatBody.fail (str "No message provided"))
  ∧ (chat [] emptyMap ⟨true, some (List.replicate 2001 'a'), none⟩ okCall).2.1 = 400 :=
  ⟨(c6_request_validation [] emptyMap ⟨false, none, none⟩ okCall).1 rfl,
   (c6_request_validation [] emptyMap ⟨true, none, none⟩ okCall).2.1 rfl rfl,
   (c6_request_validation [] emptyMap ⟨true, some (List.replicate 2001 'a'), none⟩
      okCall).2.2 rfl
      (by rw [show ((some (List.replicate 2001 'a')).getD [] : Str)
            = List.replicate 2001 'a' from rfl, pyStrip_replicate,
            List.length_replicate]
          decide)⟩

/-- Counterexample for C6 as stated: a 2001-character message ending in a
space strips to 2000 characters, passes validation, and the request succeeds
with 200 rather than being rejected with 400. -/
theorem chat_with_groq_okCall (cv_content : Str) (st : SessionMap) (m sid : Str) :
    (chat_with_groq cv_content st m sid okCall).2
      = Except.ok (str "ok", is_cv_question m) := by
  simp [chat_with_groq, okCall]

theorem c6_counterexample :
    msg2001.length = 2001
  ∧ (chat [] emptyMap ⟨true, some msg2001, none⟩ okCall).2.1 = 200 := by
  refine ⟨msg2001_length, ?_⟩
  have hne : (List.replicate 2000 'a' : Str) ≠ [] := by
    rw [show (List.replicate 2000 'a' : Str) = 'a' :: List.replicate 1999 'a' from rfl]
    exact List.cons_ne_nil _ _
  simp only [chat, Option.getD_some, Option.getD_none, pyStrip_msg2001]
  rw [if_neg (show ¬(true = false) from by decide), if_neg hne,
    List.length_replicate, if_neg (show ¬(2000 < 2000) from by decide)]
  split
  · rfl
  · next st2 e heq =>
    have h2 := congrArg Prod.snd heq
    rw [chat_with_groq_okCall] at h2
    cases h2
